import Mathlib

/-!
Verification of the Atlas guardrail and access-control layer.

This file gives a shallow embedding, in Lean 4, of the security-relevant
pieces of the Atlas repository and proves (or refutes) the specification
claims about them:

* the lexical read-only SQL validator and the query executor of
  src/Atlas/src/atlas/connectors/oracle/connector.py;
* the role-based schema filter of src/src/atlas/connectors/oracle/data_moat.py;
* the JWT verification and logout route of src/src/atlas/api/security/auth.py
  and src/src/atlas/api/routes/auth.py;
* the token blacklist of src/src/atlas/api/security/token_blacklist.py;
* the audit-detail sanitizer of src/src/atlas/api/security/audit.py.

Python strings are modelled as Lean strings restricted to ASCII text: the
regex metacharacter \b and the IGNORECASE flag are modelled with
Char.isAlphanum and Char.toUpper, which agree with Python on ASCII input
(all SQL keywords involved are ASCII).  Python floats (epoch timestamps,
timeout seconds) are modelled as rationals, and Python dicts as association
lists whose insert overwrites an existing key.
-/

deriving instance DecidableEq for Except

namespace Atlas

/-! ## Lexical read-only SQL validator

Embeds OracleConnector.FORBIDDEN_KEYWORDS, _KEYWORD_PATTERN and
validate_query from src/Atlas/src/atlas/connectors/oracle/connector.py.
The regex (built from the frozenset) matches any forbidden keyword as a
whole word, case-insensitively; validate_query raises
ReadOnlyViolationError naming the matched keyword, modelled here as
returning some keyword, while a pass returns none.
-/

/-- Word character in the sense of the regex class \w (ASCII model):
letters, digits and underscore. -/
def isWordChar (c : Char) : Bool :=
  c.isAlphanum || c == '_'

/-- The FORBIDDEN_KEYWORDS frozenset of OracleConnector.  The set is
unordered in the source; the order below is the literal order in the
file, and it is irrelevant to the semantics because at a fixed position
at most one keyword can match as a whole word. -/
def FORBIDDEN_KEYWORDS : List (List Char) :=
  [['I','N','S','E','R','T'],
   ['U','P','D','A','T','E'],
   ['D','E','L','E','T','E'],
   ['D','R','O','P'],
   ['A','L','T','E','R'],
   ['C','R','E','A','T','E'],
   ['T','R','U','N','C','A','T','E'],
   ['M','E','R','G','E'],
   ['G','R','A','N','T'],
   ['R','E','V','O','K','E']]

/-- The keyword kw (given upper-case) matches in s at position i as a
whole word, case-insensitively: the regex \b(kw)\b with re.IGNORECASE
matches the slice of s starting at i. -/
def matchesAt (s : List Char) (i : Nat) (kw : List Char) : Bool :=
  decide (i + kw.length ≤ s.length) &&
  ((s.drop i).take kw.length).map Char.toUpper == kw &&
  (i == 0 || !isWordChar (s.getD (i - 1) ' ')) &&
  (i + kw.length == s.length || !isWordChar (s.getD (i + kw.length) ' '))

/-- Scan a list of candidate start positions left to right and return the
first forbidden keyword that matches at one of them (re.search finds the
leftmost match; at a fixed position at most one keyword can match as a
whole word, so the frozenset iteration order does not matter). -/
def searchPositions (s : List Char) : List Nat → Option (List Char)
  | [] => none
  | i :: rest =>
    match FORBIDDEN_KEYWORDS.find? (fun kw => matchesAt s i kw) with
    | some kw => some kw
    | none => searchPositions s rest

/-- Leftmost whole-word forbidden keyword in s, if any: the embedding of
OracleConnector._KEYWORD_PATTERN.search. -/
def findForbidden (s : List Char) : Option (List Char) :=
  searchPositions s (List.range (s.length + 1))

/-- OracleConnector.validate_query: returns none when the query passes
(no exception), and some k when it raises ReadOnlyViolationError naming
keyword k (match.group(1).upper(), which equals the canonical upper-case
keyword because the match is case-insensitive). -/
def validate_query (sql : String) : Option String :=
  (findForbidden sql.data).map (fun kw => String.mk kw)

/-! ## Query executor

Embeds OracleConnector.execute_query from
src/Atlas/src/atlas/connectors/oracle/connector.py.  The backing
database (reached through the oracledb connection pool) is modelled the
way the repository tests mock it: a cursor description giving the column
names, the row tuples the cursor returns, and the wall-clock delay the
execute call takes (rows are modelled as integer tuples, which is what
the tests use and enough for the claims).  The executor awaits
cursor.execute, fetches every row, and zips each row with the column
names; the embedding also reports the wall-clock time that elapsed
before the caller got its answer (the backend delay, since the source
awaits the execute call with no deadline). -/

/-- Mocked backend visible through a pooled connection, as built by
_build_mock_pool in tests/test_db_guardrails.py: cursor.description
columns, the rows the cursor yields, and the execute-call delay in
seconds. -/
structure MockBackend where
  columns : List String
  rows : List (List Int)
  executeDelay : ℚ
deriving DecidableEq

/-- Errors execute_query can raise: ReadOnlyViolationError from
validate_query, or RuntimeError when no pool exists.  The source module
defines no QueryGuardrailError and no timeout or row-cap path. -/
inductive QueryError where
  | readOnlyViolation (keyword : String)
  | notConnected
deriving DecidableEq

/-- Connector state: credentials and whether connect() has installed a
pool.  __init__ accepts exactly user, password and dsn — there is no
timeout_seconds and no max_rows parameter. -/
structure OracleConnectorState where
  user : String
  password : String
  dsn : String
  pool : Bool
deriving DecidableEq

/-- OracleConnector.execute_query: validates, requires a pool, then
executes and fetches all rows, returning them as column-named records.
The second component is the time the caller waited for the answer: the
full backend delay, because the await on cursor.execute is unbounded. -/
def execute_query (st : OracleConnectorState) (backend : MockBackend) (sql : String) :
    Except QueryError (List (List (String × Int))) × ℚ :=
  match validate_query sql with
  | some kw => (.error (.readOnlyViolation kw), 0)
  | none =>
    if !st.pool then (.error .notConnected, 0)
    else (.ok (backend.rows.map (fun row => backend.columns.zip row)), backend.executeDelay)

/-- Connector as configured by the guardrail-test fixture (the Lite
source accepts no guardrail settings). -/
def testConnector : OracleConnectorState :=
  { user := "test_user", password := "test_pass", dsn := "localhost:1521/ORCL", pool := true }

/-! ## Data Moat: role-based schema filtering

Embeds src/src/atlas/connectors/oracle/data_moat.py.  A candidate table
dict is modelled by the four string fields the code reads (each Option,
none meaning the key is absent); Python truthiness of a string field
(absent or empty string is falsy) is modelled by `truthy`.  The schema
JSON file read by load_schema_metadata is passed in explicitly as the
diskSchema argument. -/

/-- Model of str.upper() (ASCII, which covers every string the data
moat compares): upper-case each character. -/
def strUpper (s : String) : String :=
  String.mk (s.data.map Char.toUpper)

/-- Python truthiness for an optional string: false for an absent key
and for the empty string. -/
def truthy : Option String → Bool
  | none => false
  | some s => !s.data.isEmpty

/-- Candidate table dict as read by _resolve_classification:
security_metadata.classification, flat classification, table_name and
name keys. -/
structure TableMeta where
  security_classification : Option String
  classification : Option String
  table_name : Option String
  name : Option String
deriving DecidableEq

/-- One object of the schema JSON, as read by filter_tables_by_role when
building its lookup dict: the name key (if present) and
security_metadata.classification (if present). -/
structure SchemaObj where
  name : Option String
  security_classification : Option String
deriving DecidableEq

/-- CLASSIFICATION_LEVELS (higher index = more restricted). -/
def CLASSIFICATION_LEVELS : List String :=
  ["PUBLIC", "INTERNAL", "RESTRICTED", "SECRET", "TOP_SECRET"]

/-- ROLE_CLEARANCE: the UserRole enum values mapped to their maximum
classification level. -/
def ROLE_CLEARANCE : List (String × Nat) :=
  [("viewer", 1), ("analyst", 2), ("service", 3), ("admin", 4)]

/-- ROLE_CLEARANCE.get(user_role, 0): dict lookup with default 0. -/
def roleClearance (user_role : String) : Nat :=
  ((ROLE_CLEARANCE.find? (fun e => e.1 == user_role)).map (fun e => e.2)).getD 0

/-- get_classification_level: upper-case the string, index into
CLASSIFICATION_LEVELS, default to INTERNAL (1) for unknown labels. -/
def get_classification_level (classification : String) : Nat :=
  let c := strUpper classification
  ((CLASSIFICATION_LEVELS.findIdx? (fun l => l == c)).getD 1)

/-- Dict assignment d[k] = v on an association list: overwrite the
existing key or append. -/
def dictSet (m : List (String × String)) (k v : String) : List (String × String) :=
  if m.any (fun e => e.1 == k) then m.map (fun e => if e.1 == k then (k, v) else e)
  else m ++ [(k, v)]

/-- Dict lookup (name in d / d[name]). -/
def dictGet? (m : List (String × String)) (k : String) : Option String :=
  (m.find? (fun e => e.1 == k)).map (fun e => e.2)

/-- The dict comprehension of filter_tables_by_role: for each schema
object that has a name key, map the upper-cased name to its
security_metadata classification (defaulting to INTERNAL when the key is
absent); later entries overwrite earlier ones. -/
def buildSchemaLookup (schema : List SchemaObj) : List (String × String) :=
  schema.foldl
    (fun m obj =>
      match obj.name with
      | none => m
      | some nm => dictSet m (strUpper nm) (obj.security_classification.getD "INTERNAL"))
    []

/-- Python x or y for optional strings: the first operand when truthy,
otherwise the second. -/
def pyOr (a b : Option String) : Option String :=
  if truthy a then a else b

/-- _resolve_classification: inline security_metadata classification
first, then the flat classification key, then (when a non-empty lookup
dict was built) the schema lookup by table_name or name, else
INTERNAL. -/
def resolve_classification (table : TableMeta)
    (schema_lookup : Option (List (String × String))) : String :=
  if truthy table.security_classification then table.security_classification.getD ""
  else if truthy table.classification then table.classification.getD ""
  else
    match schema_lookup with
    | some m =>
      if m.isEmpty then "INTERNAL"
      else
        let nm := strUpper ((pyOr table.table_name table.name).getD "")
        (dictGet? m nm).getD "INTERNAL"
    | none => "INTERNAL"

/-- The lookup dict filter_tables_by_role builds: only when some table
lacks both inline classification sources does it load the schema JSON
and build the dict; otherwise schema_lookup stays None. -/
def moatSchemaLookup (tables : List TableMeta) (diskSchema : List SchemaObj) :
    Option (List (String × String)) :=
  if tables.any (fun t => !truthy t.security_classification && !truthy t.classification)
  then some (buildSchemaLookup diskSchema)
  else none

/-- filter_tables_by_role: keep exactly the tables whose resolved
classification level is at most the clearance of the requesting role
(ROLE_CLEARANCE.get(user_role, 0)). -/
def filter_tables_by_role (tables : List TableMeta) (user_role : String)
    (diskSchema : List SchemaObj) : List TableMeta :=
  let max_level := roleClearance user_role
  let schema_lookup := moatSchemaLookup tables diskSchema
  tables.filter
    (fun t => get_classification_level (resolve_classification t schema_lookup) ≤ max_level)

/-! ## Token blacklist

Embeds src/src/atlas/api/security/token_blacklist.py.  The _blacklist
dict (jti to expiration timestamp, a float from datetime.timestamp())
is an association list of rationals; dict assignment overwrites an
existing key.  The threading.Lock only serializes access and has no
sequential semantics. -/

/-- Dict assignment d[k] = v for an arbitrary value type: overwrite the
existing key or append. -/
def pyDictSet {α : Type} (m : List (String × α)) (k : String) (v : α) : List (String × α) :=
  if m.any (fun e => e.1 == k) then m.map (fun e => if e.1 == k then (k, v) else e)
  else m ++ [(k, v)]

/-- In-memory token blacklist state: the _blacklist dict. -/
structure TokenBlacklist where
  entries : List (String × ℚ)
deriving DecidableEq

/-- TokenBlacklist.revoke: store the expiry timestamp under the jti. -/
def TokenBlacklist.revoke (b : TokenBlacklist) (jti : String) (expires_at : ℚ) :
    TokenBlacklist :=
  ⟨pyDictSet b.entries jti expires_at⟩

/-- TokenBlacklist.is_revoked: pure dict-membership test on the jti —
the stored expiry timestamp is not consulted. -/
def TokenBlacklist.is_revoked (b : TokenBlacklist) (jti : String) : Bool :=
  b.entries.any (fun e => e.1 == jti)

/-- TokenBlacklist.cleanup: delete every entry whose expiry is strictly
before now and return the number removed. -/
def TokenBlacklist.cleanup (b : TokenBlacklist) (now : ℚ) : TokenBlacklist × Nat :=
  (⟨b.entries.filter (fun e => !decide (e.2 < now))⟩,
   (b.entries.filter (fun e => decide (e.2 < now))).length)

/-- Operations other than cleanup that can touch the blacklist between
a revocation and a later is_revoked call. -/
inductive BlacklistOp where
  | revoke (jti : String) (exp : ℚ)
deriving DecidableEq

/-- Run a sequence of blacklist operations. -/
def applyOps (b : TokenBlacklist) : List BlacklistOp → TokenBlacklist
  | [] => b
  | BlacklistOp.revoke j e :: rest => applyOps (b.revoke j e) rest

/-! ## JWT verification and the logout route

Embeds verify_token from src/src/atlas/api/security/auth.py and the
logout handler from src/src/atlas/api/routes/auth.py.  A JWT is
modelled as its decoded payload together with an abstract bit saying
whether its signature verifies against JWT_SECRET_KEY; jwt.decode
checks the signature (InvalidTokenError, mapped to the 401 Invalid
branch) and then the exp claim (ExpiredSignatureError, mapped to the
401 Expired branch, raised when exp is at or before the current
time). -/

/-- Decoded token claims (exp and iat as epoch seconds). -/
structure TokenPayload where
  sub : String
  email : String
  role : String
  exp : ℚ
  iat : ℚ
  jti : String
deriving DecidableEq

/-- A presented bearer token: its claims plus whether its signature
verifies. -/
structure Token where
  payload : TokenPayload
  sigValid : Bool
deriving DecidableEq

/-- Failure modes of verify_token (both surface as HTTP 401). -/
inductive AuthError where
  | expired
  | invalid
deriving DecidableEq

/-- verify_token: jwt.decode validates the signature and the expiry;
revocation status is never consulted (no blacklist argument exists). -/
def verify_token (now : ℚ) (t : Token) : Except AuthError TokenPayload :=
  if !t.sigValid then .error .invalid
  else if t.payload.exp ≤ now then .error .expired
  else .ok t.payload

/-! ## Audit logging and detail sanitization

Embeds AuditLogger._sanitize_details and AuditLogger.log from
src/src/atlas/api/security/audit.py.  JSON-like detail values are the
inductive Val; dicts are association lists.  The event id and timestamp
(wall-clock strings) are elided from the AuditEvent model — no claim
depends on them. -/

/-- JSON-like value stored under a detail key. -/
inductive Val where
  | vstr : String → Val
  | vint : Int → Val
  | vbool : Bool → Val
  | vnull : Val
  | vdict : List (String × Val) → Val
  | vlist : List Val → Val

/-- The sensitive_keys set of _sanitize_details (set order is
irrelevant: only membership via any is used). -/
def sensitive_keys : List String :=
  ["password", "token", "secret", "api_key", "apikey", "authorization",
   "auth", "credential", "ssn", "credit_card", "card_number"]

/-- Substring containment (needle appears contiguously in hay),
modelling the Python expression sensitive in key_lower. -/
def containsSub (hay needle : List Char) : Bool :=
  (List.range (hay.length + 1)).any (fun i => (hay.drop i).take needle.length == needle)

/-- Model of str.lower() (ASCII): lower-case each character. -/
def strLower (s : String) : String :=
  String.mk (s.data.map Char.toLower)

/-- A detail key is sensitive when its lower-cased form contains one of
the sensitive terms as a substring. -/
def isSensitiveKey (key : String) : Bool :=
  sensitive_keys.any (fun t => containsSub (strLower key).data t.data)

/-- AuditLogger._sanitize_details: redact the value of any sensitive
key, recurse into dict values, truncate oversized strings, and pass
every other value (including lists) through verbatim. -/
def sanitize_details : List (String × Val) → List (String × Val)
  | [] => []
  | (k, v) :: rest =>
    (if isSensitiveKey k then (k, Val.vstr "[REDACTED]")
     else
       match v with
       | Val.vdict d => (k, Val.vdict (sanitize_details d))
       | Val.vstr s =>
         if 1000 < s.length then
           (k, Val.vstr (String.mk (s.data.take 1000) ++ "...[truncated]"))
         else (k, Val.vstr s)
       | v => (k, v)) :: sanitize_details rest

/-- Checks that a sanitized detail dict leaks nothing: every entry at
every dict depth whose key is sensitive carries the redaction marker
(list values are not descended into, mirroring the sanitizer). -/
def sensitiveClean : List (String × Val) → Bool
  | [] => true
  | (k, v) :: rest =>
    (!isSensitiveKey k || (match v with | Val.vstr s => s == "[REDACTED]" | _ => false)) &&
    (match v with | Val.vdict d => sensitiveClean d | _ => true) &&
    sensitiveClean rest

/-- Persisted audit event (id and timestamp elided, see section
comment). -/
structure AuditEvent where
  event_type : String
  user_id : Option String
  user_email : Option String
  client_ip : Option String
  resource_type : Option String
  resource_id : Option String
  action : Option String
  details : List (String × Val)
  success : Bool
  error_message : Option String

/-- AuditLogger.log: build the event with sanitized details (details or
an empty dict when absent) and persist it via the append-only
_write_event, which writes the event unchanged. -/
def AuditLogger.log (event_type : String)
    (user_id user_email client_ip resource_type resource_id action : Option String)
    (details : Option (List (String × Val))) (success : Bool)
    (error_message : Option String) : AuditEvent :=
  { event_type := event_type, user_id := user_id, user_email := user_email,
    client_ip := client_ip, resource_type := resource_type, resource_id := resource_id,
    action := action, details := sanitize_details (details.getD []),
    success := success, error_message := error_message }

/-- Server state the logout route touches: the token blacklist (which
it leaves alone) and the append-only audit trail. -/
structure ApiState where
  blacklist : TokenBlacklist
  audit : List AuditEvent

/-- The logout route: get_current_user verifies the bearer token
(signature and expiry only), then the handler audit-logs the event with
the token jti in the details and returns the logout message.  The
source explicitly defers revocation: the jti is never added to the
blacklist. -/
def logout (st : ApiState) (now : ℚ) (client_ip : Option String) (token : Token) :
    ApiState × Except AuthError String :=
  match verify_token now token with
  | .error e => (st, .error e)
  | .ok user =>
    let ev := AuditLogger.log "auth.logout" (some user.sub) (some user.email) client_ip
      none none (some "logout") (some [("token_jti", Val.vstr user.jti)]) true none
    ({ st with audit := st.audit ++ [ev] }, .ok "Successfully logged out")

/-- The demo token of the api test-suite login flow: valid signature,
issued at 0, expiring an hour later. -/
def demoToken : Token :=
  ⟨⟨"user_001", "demo@atlas.sa", "analyst", 3600, 0, "jti_demo_1"⟩, true⟩

/-- Fresh server state: empty blacklist, empty audit trail. -/
def freshApiState : ApiState :=
  ⟨⟨[]⟩, []⟩

/-! ## Theorems

The claim theorems, their witnesses and counterexamples, and the
supporting lemmas, in the order of the sections above. -/

/-- A successful position scan yields a forbidden keyword that matches
at one of the scanned positions. -/
theorem searchPositions_eq_some (s : List Char) (ps : List Nat) (kw : List Char)
    (h : searchPositions s ps = some kw) :
    kw ∈ FORBIDDEN_KEYWORDS ∧ ∃ i, i ∈ ps ∧ matchesAt s i kw = true := by
  induction ps with
  | nil => simp [searchPositions] at h
  | cons j rest ih =>
    rw [searchPositions] at h
    cases hf : FORBIDDEN_KEYWORDS.find? (fun kw => matchesAt s j kw) with
    | some k =>
      rw [hf] at h
      cases h
      exact ⟨List.mem_of_find?_eq_some hf,
        j, List.mem_cons_self _ _, List.find?_some hf⟩
    | none =>
      rw [hf] at h
      obtain ⟨hmem, i, hi, hm⟩ := ih h
      exact ⟨hmem, i, List.mem_cons_of_mem _ hi, hm⟩

/-- If a forbidden keyword matches at some scanned position, the scan
succeeds. -/
theorem searchPositions_isSome (s : List Char) (ps : List Nat) (i : Nat) (kw : List Char)
    (hi : i ∈ ps) (hkw : kw ∈ FORBIDDEN_KEYWORDS) (hm : matchesAt s i kw = true) :
    ∃ k, searchPositions s ps = some k := by
  induction ps with
  | nil => simp at hi
  | cons j rest ih =>
    rw [searchPositions]
    cases hf : FORBIDDEN_KEYWORDS.find? (fun kw => matchesAt s j kw) with
    | some k => exact ⟨k, rfl⟩
    | none =>
      rcases List.mem_cons.mp hi with h | h
      · subst h
        have := List.find?_eq_none.mp hf kw hkw
        simp [hm] at this
      · exact ih h

/-- A keyword that matches at position i forces i into the scanned range
of findForbidden. -/
theorem matchesAt_pos_le (s : List Char) (i : Nat) (kw : List Char)
    (hm : matchesAt s i kw = true) : i ∈ List.range (s.length + 1) := by
  rw [matchesAt] at hm
  simp only [Bool.and_eq_true, decide_eq_true_eq] at hm
  exact List.mem_range.mpr (by omega)

/-- Claim C5 (amended): for every SQL string in which any of the ten
forbidden keywords INSERT, UPDATE, DELETE, DROP, ALTER, CREATE,
TRUNCATE, MERGE, GRANT, REVOKE appears as a whole word, in any letter
case, anywhere in the string including inside quoted text, validate_query
raises ReadOnlyViolationError naming a forbidden keyword that occurs as a
whole word (the leftmost one).  The source set has ten keywords: EXECUTE
and CALL, listed by the claim, are not in FORBIDDEN_KEYWORDS. -/
theorem validate_query_rejects_forbidden_keyword (sql : String) (kw : List Char) (i : Nat)
    (hkw : kw ∈ FORBIDDEN_KEYWORDS) (hm : matchesAt sql.data i kw = true) :
    ∃ k, validate_query sql = some (String.mk k) ∧ k ∈ FORBIDDEN_KEYWORDS ∧
      ∃ j, matchesAt sql.data j k = true := by
  obtain ⟨k, hk⟩ :=
    searchPositions_isSome sql.data (List.range (sql.data.length + 1)) i kw
      (matchesAt_pos_le sql.data i kw hm) hkw hm
  obtain ⟨hmem, j, _, hj⟩ := searchPositions_eq_some sql.data _ k hk
  exact ⟨k, by rw [validate_query, findForbidden, hk]; rfl, hmem, j, hj⟩

/-- Witness for C5 (amended): the keyword drop, lower-case and inside a
quoted literal, is still rejected and named. -/
theorem validate_query_rejects_forbidden_keyword_witness :
    ∃ k, validate_query "SELECT name FROM t WHERE note = \"drop\"" = some (String.mk k) ∧
      k ∈ FORBIDDEN_KEYWORDS ∧
      ∃ j, matchesAt ("SELECT name FROM t WHERE note = \"drop\"").data j k = true :=
  validate_query_rejects_forbidden_keyword "SELECT name FROM t WHERE note = \"drop\""
    ['D','R','O','P'] 33 (by decide) (by decide)

/-- Counterexample to C5 as stated: EXECUTE and CALL appear as whole
words (CALL matches at position 0, EXECUTE at position 0), yet
validate_query accepts both statements without any ReadOnlyViolation —
the connector only forbids ten keywords, not the twelve the claim
lists. -/
theorem validate_query_accepts_execute_and_call :
    validate_query "CALL refresh_stats(:run_id)" = none ∧
    matchesAt ("CALL refresh_stats(:run_id)").data 0 ['C','A','L','L'] = true ∧
    validate_query "EXECUTE IMMEDIATE remove_old_rows" = none ∧
    matchesAt ("EXECUTE IMMEDIATE remove_old_rows").data 0
      ['E','X','E','C','U','T','E'] = true := by
  refine ⟨by decide, by decide, by decide, by decide⟩

/-- Claim C4 (code bug): a batched two-statement query whose statements
contain no forbidden keyword sails through validate_query — the
validator has no statement-delimiter check at all, so it cannot reject
multi-statement input, although the repository test
test_rejects_multi_statement_queries requires the rejection. -/
theorem multi_statement_query_passes_validation :
    validate_query "SELECT * FROM users; SELECT * FROM orders" = none := by decide

/-- Claim C1 (code bug): with the three-row backend of
test_row_limit_guardrail_triggers (max_rows = 2 in the test
configuration), execute_query returns all three rows as a complete
result — the source has no max_rows configuration and no row-count
check, so no QueryGuardrailError can be raised, although the
repository test requires the row-cap failure. -/
theorem execute_query_returns_rows_beyond_cap :
    (execute_query testConnector ⟨["ID"], [[1], [2], [3]], 0⟩ "SELECT ID FROM USERS").1 =
      .ok [[("ID", 1)], [("ID", 2)], [("ID", 3)]] := by decide

/-- Claim C2 (code bug): with the slow backend of
test_timeout_guardrail_triggers (timeout_seconds = 0.01 in the test
configuration, backend delay 0.05 s), execute_query blocks for the full
0.05 s — past the 0.01 s deadline — and then hands the caller the rows:
the source has no timeout configuration and awaits the backend without
any deadline, so no QueryGuardrailError can be raised, although the
repository test requires the timeout failure. -/
theorem execute_query_ignores_deadline :
    (∀ d : ℚ, execute_query testConnector ⟨["ID"], [[1]], d⟩ "SELECT ID FROM USERS" =
      (.ok [[("ID", 1)]], d)) ∧ (1/100 : ℚ) < 5/100 := by
  constructor
  · intro d
    have hv : validate_query "SELECT ID FROM USERS" = none := by decide
    simp [execute_query, hv, testConnector]
  · norm_num

/-- A role string that is none of the four named roles gets the default
clearance 0 from ROLE_CLEARANCE.get(user_role, 0). -/
theorem roleClearance_unknown (r : String)
    (h : r ≠ "viewer" ∧ r ≠ "analyst" ∧ r ≠ "service" ∧ r ≠ "admin") :
    roleClearance r = 0 := by
  obtain ⟨h1, h2, h3, h4⟩ := h
  have e1 : ("viewer" == r) = false := beq_eq_false_iff_ne.mpr (Ne.symm h1)
  have e2 : ("analyst" == r) = false := beq_eq_false_iff_ne.mpr (Ne.symm h2)
  have e3 : ("service" == r) = false := beq_eq_false_iff_ne.mpr (Ne.symm h3)
  have e4 : ("admin" == r) = false := beq_eq_false_iff_ne.mpr (Ne.symm h4)
  simp [roleClearance, ROLE_CLEARANCE, List.find?, e1, e2, e3, e4]

/-- Claim C7 (confirmed): filtering is monotone in clearance — whenever
role B has clearance at most role A (for arbitrary role strings,
including unknown ones, via ROLE_CLEARANCE.get with default 0), every
candidate kept for B is kept for A over the same candidate list and the
same on-disk schema. -/
theorem filter_tables_by_role_monotone (T : List TableMeta) (schema : List SchemaObj)
    (A B : String) (h : roleClearance B ≤ roleClearance A) :
    ∀ t ∈ filter_tables_by_role T B schema, t ∈ filter_tables_by_role T A schema := by
  intro t ht
  simp only [filter_tables_by_role, List.mem_filter, decide_eq_true_eq] at ht ⊢
  exact ⟨ht.1, le_trans ht.2 h⟩

/-- Witness for C7: an INTERNAL table kept for viewer is kept for
admin. -/
theorem filter_tables_by_role_monotone_witness :
    (⟨none, some "INTERNAL", none, some "EMPLOYEES"⟩ : TableMeta) ∈
      filter_tables_by_role [⟨none, some "INTERNAL", none, some "EMPLOYEES"⟩] "admin" [] :=
  filter_tables_by_role_monotone [⟨none, some "INTERNAL", none, some "EMPLOYEES"⟩] []
    "admin" "viewer" (by decide) _ (by decide)

/-- Claim C6 (amended): an unknown or absent role resolves to default
clearance 0, which is strictly below the most restrictive named role
VIEWER (clearance 1): the filtered list for an unknown role is a subset
of the VIEWER result, and every candidate it keeps resolves to
classification level 0 (PUBLIC) — in particular never RESTRICTED (2) or
above.  It is not, in general, equal to the VIEWER result (see
unknown_role_not_viewer_equivalent). -/
theorem filter_unknown_role_most_restrictive (T : List TableMeta) (schema : List SchemaObj)
    (r : String) (h : r ≠ "viewer" ∧ r ≠ "analyst" ∧ r ≠ "service" ∧ r ≠ "admin") :
    (∀ t ∈ filter_tables_by_role T r schema, t ∈ filter_tables_by_role T "viewer" schema) ∧
    (∀ t ∈ filter_tables_by_role T r schema,
      get_classification_level (resolve_classification t (moatSchemaLookup T schema)) = 0) := by
  have h0 : roleClearance r = 0 := roleClearance_unknown r h
  have hv : roleClearance "viewer" = 1 := by decide
  constructor
  · intro t ht
    simp only [filter_tables_by_role, List.mem_filter, decide_eq_true_eq, h0, hv] at ht ⊢
    exact ⟨ht.1, by omega⟩
  · intro t ht
    simp only [filter_tables_by_role, List.mem_filter, decide_eq_true_eq, h0] at ht
    omega

/-- Witness for C6 (amended): a PUBLIC table kept for an unknown role is
also kept for viewer. -/
theorem filter_unknown_role_most_restrictive_witness :
    (⟨some "PUBLIC", none, none, some "HOLIDAYS"⟩ : TableMeta) ∈
      filter_tables_by_role [⟨some "PUBLIC", none, none, some "HOLIDAYS"⟩] "viewer" [] :=
  (filter_unknown_role_most_restrictive [⟨some "PUBLIC", none, none, some "HOLIDAYS"⟩] []
    "unknown_role" ⟨by decide, by decide, by decide, by decide⟩).1 _ (by decide)

/-- Counterexample to C6 as stated: for an INTERNAL-classified
candidate, the unknown role (clearance 0) sees nothing while VIEWER
(clearance 1) sees the candidate, so filtering an unknown role does NOT
return exactly what VIEWER gets — it is strictly more restrictive, as
the repository test test_unknown_role_sees_only_public also records. -/
theorem unknown_role_not_viewer_equivalent :
    filter_tables_by_role [⟨none, some "INTERNAL", none, some "EMPLOYEES"⟩] "unknown_role" []
      = [] ∧
    filter_tables_by_role [⟨none, some "INTERNAL", none, some "EMPLOYEES"⟩] "viewer" []
      = [⟨none, some "INTERNAL", none, some "EMPLOYEES"⟩] := by
  exact ⟨by decide, by decide⟩

/-- Dict assignment stores v under k: any surviving entry keyed k holds
v. -/
theorem pyDictSet_val {α : Type} (m : List (String × α)) (k : String) (v : α)
    (e : String × α) (he : e ∈ pyDictSet m k v) (hk : e.1 = k) : e.2 = v := by
  rw [pyDictSet] at he
  split at he
  case isTrue h =>
    obtain ⟨x, hx, hfx⟩ := List.mem_map.mp he
    split at hfx
    case isTrue hxk => rw [← hfx]
    case isFalse hxk =>
      rw [← hfx] at hk
      exact absurd (beq_iff_eq.mpr hk) hxk
  case isFalse h =>
    rcases List.mem_append.mp he with h1 | h1
    · have hm : (m.any fun x => x.1 == k) = true :=
        List.any_eq_true.mpr ⟨e, h1, beq_iff_eq.mpr hk⟩
      exact absurd hm h
    · rw [List.mem_singleton] at h1
      rw [h1]

/-- Revoking a jti makes it revoked. -/
theorem is_revoked_revoke (b : TokenBlacklist) (jti : String) (exp : ℚ) :
    (b.revoke jti exp).is_revoked jti = true := by
  rw [TokenBlacklist.revoke, TokenBlacklist.is_revoked]
  show (pyDictSet b.entries jti exp).any (fun e => e.1 == jti) = true
  rw [pyDictSet]
  split
  case isTrue h =>
    obtain ⟨e, he, hk⟩ := List.any_eq_true.mp h
    exact List.any_eq_true.mpr ⟨(jti, exp), List.mem_map.mpr ⟨e, he, by simp [hk]⟩, by simp⟩
  case isFalse h =>
    exact List.any_eq_true.mpr
      ⟨(jti, exp), List.mem_append.mpr (Or.inr (List.mem_singleton.mpr rfl)), by simp⟩

/-- Revoking another (or the same) jti never un-revokes one. -/
theorem is_revoked_mono (b : TokenBlacklist) (jti j : String) (e : ℚ)
    (h : b.is_revoked jti = true) : (b.revoke j e).is_revoked jti = true := by
  rw [TokenBlacklist.is_revoked] at h
  obtain ⟨x, hx, hk⟩ := List.any_eq_true.mp h
  rw [TokenBlacklist.revoke, TokenBlacklist.is_revoked]
  show (pyDictSet b.entries j e).any (fun e => e.1 == jti) = true
  rw [pyDictSet]
  split
  case isTrue hc =>
    by_cases hxj : (x.1 == j) = true
    · refine List.any_eq_true.mpr ⟨(j, e), List.mem_map.mpr ⟨x, hx, by simp [hxj]⟩, ?_⟩
      have h1 : x.1 = j := beq_iff_eq.mp hxj
      have h2 : x.1 = jti := beq_iff_eq.mp hk
      simp [← h1, h2]
    · exact List.any_eq_true.mpr ⟨x, List.mem_map.mpr ⟨x, hx, by simp [hxj]⟩, hk⟩
  case isFalse hc =>
    exact List.any_eq_true.mpr ⟨x, List.mem_append.mpr (Or.inl hx), hk⟩

/-- A run of further revocations keeps an already revoked jti
revoked. -/
theorem applyOps_preserves (ops : List BlacklistOp) (b : TokenBlacklist) (jti : String)
    (h : b.is_revoked jti = true) : (applyOps b ops).is_revoked jti = true := by
  induction ops generalizing b with
  | nil => exact h
  | cons op rest ih =>
    cases op with
    | revoke j e => exact ih _ (is_revoked_mono b jti j e h)

/-- Claim C9 (confirmed): once a jti is revoked, is_revoked answers
true after any further revocations, regardless of the stored expiry —
is_revoked is a pure membership test that never prunes; cleanup (and
only cleanup) removes exactly the entries whose expiry is strictly
before now, and after an explicit cleanup past the expiry the jti
reads as not revoked. -/
theorem token_blacklist_revocation (b : TokenBlacklist) (jti : String) (exp : ℚ)
    (ops : List BlacklistOp) (now : ℚ) :
    (applyOps (b.revoke jti exp) ops).is_revoked jti = true ∧
    ((b.cleanup now).1.entries = b.entries.filter (fun e => !decide (e.2 < now))) ∧
    (exp < now → ((b.revoke jti exp).cleanup now).1.is_revoked jti = false) := by
  refine ⟨applyOps_preserves ops _ jti (is_revoked_revoke b jti exp), rfl, ?_⟩
  intro hlt
  simp only [TokenBlacklist.cleanup, TokenBlacklist.revoke, TokenBlacklist.is_revoked]
  rw [Bool.eq_false_iff]
  intro hany
  obtain ⟨e, he, hk⟩ := List.any_eq_true.mp hany
  obtain ⟨hmem, hcond⟩ := List.mem_filter.mp he
  have hv : e.2 = exp := pyDictSet_val b.entries jti exp e hmem (beq_iff_eq.mp hk)
  rw [hv] at hcond
  simp [hlt] at hcond

/-- Witness for C9: jti_123 revoked with expiry 0 stays revoked across
a later unrelated revocation, and cleanup at time 1 removes it. -/
theorem token_blacklist_revocation_witness :
    (applyOps (TokenBlacklist.revoke ⟨[]⟩ "jti_123" 0) [BlacklistOp.revoke "other" 7]).is_revoked
      "jti_123" = true ∧
    ((TokenBlacklist.revoke ⟨[]⟩ "jti_123" 0).cleanup 1).1.is_revoked "jti_123" = false :=
  ⟨(token_blacklist_revocation ⟨[]⟩ "jti_123" 0 [BlacklistOp.revoke "other" 7] 1).1,
   (token_blacklist_revocation ⟨[]⟩ "jti_123" 0 [BlacklistOp.revoke "other" 7] 1).2.2
     (by norm_num)⟩

/-- Claim C3 (code bug): the logout route verifies the token, logs, and
returns success, but never touches the blacklist, and verify_token
checks only signature and expiry — so verifying the same unexpired
token immediately after logout still succeeds instead of failing as
revoked (the repository test test_logout_revokes_token demands the 401
after logout). -/
theorem logout_does_not_revoke_token :
    (logout freshApiState 0 none demoToken).2 = .ok "Successfully logged out" ∧
    (logout freshApiState 0 none demoToken).1.blacklist.is_revoked "jti_demo_1" = false ∧
    verify_token 1 demoToken = .ok demoToken.payload := by
  refine ⟨by decide, by decide, by decide⟩

/-- Unfolded nil equation of the sanitizer. -/
theorem sanitize_details_nil : sanitize_details [] = [] := by
  rw [sanitize_details.eq_def]

/-- Unfolded cons equation of the sanitizer. -/
theorem sanitize_details_cons (k : String) (v : Val) (rest : List (String × Val)) :
    sanitize_details ((k, v) :: rest) =
      (if isSensitiveKey k then (k, Val.vstr "[REDACTED]")
       else
         match v with
         | Val.vdict d => (k, Val.vdict (sanitize_details d))
         | Val.vstr s =>
           if 1000 < s.length then
             (k, Val.vstr (String.mk (s.data.take 1000) ++ "...[truncated]"))
           else (k, Val.vstr s)
         | v => (k, v)) :: sanitize_details rest := by
  rw [sanitize_details.eq_def]

/-- Unfolded nil equation of the leak check. -/
theorem sensitiveClean_nil : sensitiveClean [] = true := by
  rw [sensitiveClean.eq_def]

/-- Unfolded cons equation of the leak check. -/
theorem sensitiveClean_cons (k : String) (v : Val) (rest : List (String × Val)) :
    sensitiveClean ((k, v) :: rest) =
      (((!isSensitiveKey k || (match v with | Val.vstr s => s == "[REDACTED]" | _ => false)) &&
        (match v with | Val.vdict d => sensitiveClean d | _ => true)) &&
       sensitiveClean rest) := by
  rw [sensitiveClean.eq_def]

/-- Sanitized details never leak a sensitive value: at every dict
depth, each sensitive key carries the redaction marker. -/
theorem sensitiveClean_sanitize (d : List (String × Val)) :
    sensitiveClean (sanitize_details d) = true := by
  induction d using sanitize_details.induct with
  | case1 => rw [sanitize_details_nil, sensitiveClean_nil]
  | case2 k v rest ihv ihrest =>
    rw [sanitize_details_cons]
    by_cases hs : isSensitiveKey k
    · simp only [hs, if_true]
      rw [sensitiveClean_cons]
      simp [hs, ihrest]
    · have hs' : isSensitiveKey k = false := by simpa using hs
      cases v with
      | vdict d =>
        have ihd : sensitiveClean (sanitize_details d) = true := ihv
        simp only [hs', Bool.false_eq_true, if_false]
        rw [sensitiveClean_cons]
        simp [hs', ihd, ihrest]
      | vstr s =>
        simp only [hs', Bool.false_eq_true, if_false]
        by_cases hl : 1000 < s.length
        · simp only [hl, if_true]
          rw [sensitiveClean_cons]
          simp [hs', ihrest]
        · simp only [hl, if_false]
          rw [sensitiveClean_cons]
          simp [hs', ihrest]
      | vint n =>
        simp only [hs', Bool.false_eq_true, if_false]
        rw [sensitiveClean_cons]
        simp [hs', ihrest]
      | vbool c =>
        simp only [hs', Bool.false_eq_true, if_false]
        rw [sensitiveClean_cons]
        simp [hs', ihrest]
      | vnull =>
        simp only [hs', Bool.false_eq_true, if_false]
        rw [sensitiveClean_cons]
        simp [hs', ihrest]
      | vlist l =>
        simp only [hs', Bool.false_eq_true, if_false]
        rw [sensitiveClean_cons]
        simp [hs', ihrest]

/-- Claim C8 (confirmed): every audit event built by AuditLogger.log
has fully redacted details — at the top level and inside every nested
dict value, any key whose lower-cased name contains one of the
sensitive terms of _sanitize_details carries the [REDACTED] marker in
the persisted event (when a sensitive key holds a whole dict, the dict
itself is replaced by the marker); in particular, logging
details with password mapped to x persists the password value as
[REDACTED]. -/
theorem audit_log_redacts_sensitive_keys :
    (∀ (event_type : String)
       (user_id user_email client_ip resource_type resource_id action : Option String)
       (details : Option (List (String × Val))) (success : Bool)
       (error_message : Option String),
      sensitiveClean (AuditLogger.log event_type user_id user_email client_ip resource_type
        resource_id action details success error_message).details = true) ∧
    (AuditLogger.log "auth.login.failure" none none none none none none
        (some [("password", Val.vstr "x")]) false none).details
      = [("password", Val.vstr "[REDACTED]")] := by
  constructor
  · intro et ui ue ci rt ri ac d su em
    exact sensitiveClean_sanitize (d.getD [])
  · have hp : isSensitiveKey "password" = true := by decide
    show sanitize_details [("password", Val.vstr "x")] = _
    rw [sanitize_details_cons, sanitize_details_nil]
    simp [hp]

/-- Claim C10 (confirmed): the sanitizer descends into dict values only,
never into lists — a non-sensitive key holding a list keeps the list
(and anything inside it, such as a dict with a password key) verbatim
and unredacted, while the same password key inside a directly nested
dict is redacted. -/
theorem sanitize_details_skips_list_values (k : String) (l : List Val)
    (rest : List (String × Val)) (h : isSensitiveKey k = false) :
    sanitize_details ((k, Val.vlist l) :: rest) = (k, Val.vlist l) :: sanitize_details rest ∧
    sanitize_details [("items", Val.vlist [Val.vdict [("password", Val.vstr "x")]])]
      = [("items", Val.vlist [Val.vdict [("password", Val.vstr "x")]])] ∧
    sanitize_details [("wrapper", Val.vdict [("password", Val.vstr "x")])]
      = [("wrapper", Val.vdict [("password", Val.vstr "[REDACTED]")])] := by
  have hp : isSensitiveKey "password" = true := by decide
  have hi : isSensitiveKey "items" = false := by decide
  have hw : isSensitiveKey "wrapper" = false := by decide
  refine ⟨?_, ?_, ?_⟩
  · rw [sanitize_details_cons]
    simp [h]
  · rw [sanitize_details_cons, sanitize_details_nil]
    simp [hi]
  · rw [sanitize_details_cons, sanitize_details_nil]
    simp [hw]
    rw [sanitize_details_cons, sanitize_details_nil]
    simp [hp]

/-- Witness for C10: a list-valued entry under a non-sensitive key
passes through the sanitizer untouched. -/
theorem sanitize_details_skips_list_values_witness :
    sanitize_details [("safe_items", Val.vlist [Val.vstr "x"])]
        = ("safe_items", Val.vlist [Val.vstr "x"]) :: sanitize_details [] ∧
    sanitize_details [("items", Val.vlist [Val.vdict [("password", Val.vstr "x")]])]
      = [("items", Val.vlist [Val.vdict [("password", Val.vstr "x")]])] ∧
    sanitize_details [("wrapper", Val.vdict [("password", Val.vstr "x")])]
      = [("wrapper", Val.vdict [("password", Val.vstr "[REDACTED]")])] :=
  sanitize_details_skips_list_values "safe_items" [Val.vstr "x"] [] (by decide)

end Atlas
